import Mathlib

/-!
Verification of the preference-setting layer of `lib-preferences/Prefs.h`
(Audacity): `Setting<T>` with its in-memory cache, the transaction scope
protocol (`SettingScope`, `SettingTransaction`), and the
`ChoiceSetting` / `EnumSettingBase` constructors.

The config store (`wxConfigBase`, reached through `SettingBase::GetConfig`)
is the external collaborator of the spec; it is modelled as an optional
`Config` value: per-key stored data, a per-key write-success predicate, and
a flush counter.  Machine values of type `T` are modelled by an arbitrary
type with decidable equality and an `Inhabited` default standing for the
value-initialized `T{}`.
-/

namespace Prefs

/-- Model of the external config store (`wxConfigBase`): per-key persisted
values, a per-key predicate saying whether a `Write` call succeeds, and a
counter of `Flush` calls. -/
structure Config (T : Type) where
  data : String → Option T
  writeOk : String → Bool
  flushCount : Nat

/-- `config->ReadObject(path, defaultValue)`: the stored value when the key
is present, else the given default. -/
def Config.ReadObject {T : Type} (c : Config T) (path : String) (defaultValue : T) : T :=
  (c.data path).getD defaultValue

/-- `config->Write(path, value)`: succeeds (updating the stored data) or
fails (leaving the store unchanged), as the store decides per key. -/
def Config.WriteValue {T : Type} (c : Config T) (path : String) (value : T) :
    Bool × Config T :=
  if c.writeOk path then
    (true, { c with data := fun p => if p = path then some value else c.data p })
  else
    (false, c)

/-- `config->Flush()`: modelled as bumping a flush counter. -/
def Config.flush {T : Type} (c : Config T) : Config T :=
  { c with flushCount := c.flushCount + 1 }

/-- The mutable state of a `Setting<T>` object: the key path (from
`SettingBase`), the cache fields `mCurrentValue`/`mValid` (from
`CachingSettingBase<T>`), and `mFunction`/`mDefaultValue`/`mPreviousValue`
(from `Setting<T>`). -/
structure SettingState (T : Type) where
  mPath : String
  mFunction : Option (Unit → T)
  mDefaultValue : T
  mCurrentValue : T
  mValid : Bool
  mPreviousValue : T

/-- `Setting<T>::GetDefault`: if a default-computing function is configured
it is invoked (and its result stored into `mDefaultValue`); else the stored
default is returned. -/
def Setting.GetDefault {T : Type} (s : SettingState T) : T × SettingState T :=
  match s.mFunction with
  | some f => (f (), { s with mDefaultValue := f () })
  | none => (s.mDefaultValue, s)

/-- `Setting<T>::ReadWithDefault(const T&)` (value overload, Prefs.h lines
226-241): cached value if valid; else, with a config attached, read the
stored value with the given default, cache it, and mark the cache valid
exactly when the value read differs from the default; with no config,
return `T{}` without mutating the cache. -/
def Setting.ReadWithDefault {T : Type} [DecidableEq T] [Inhabited T]
    (cfg : Option (Config T)) (s : SettingState T) (defaultValue : T) :
    T × SettingState T :=
  if s.mValid then
    (s.mCurrentValue, s)
  else
    match cfg with
    | some config =>
        let v := config.ReadObject s.mPath defaultValue
        (v, { s with mCurrentValue := v, mValid := decide (¬ v = defaultValue) })
    | none => ((default : T), s)

/-- `Setting<T>::Read()` (value overload, Prefs.h lines 218-221):
`ReadWithDefault(GetDefault())`. -/
def Setting.Read {T : Type} [DecidableEq T] [Inhabited T]
    (cfg : Option (Config T)) (s : SettingState T) : T × SettingState T :=
  Setting.ReadWithDefault cfg (Setting.GetDefault s).2 (Setting.GetDefault s).1

/-- `Setting<T>::DoWrite` (Prefs.h lines 292-297): write the cached value to
the config when attached; `mValid` becomes the write's success, `false` with
no config. -/
def Setting.DoWrite {T : Type} (cfg : Option (Config T)) (s : SettingState T) :
    Bool × Option (Config T) × SettingState T :=
  match cfg with
  | some config =>
      let r := config.WriteValue s.mPath s.mCurrentValue
      (r.1, some r.2, { s with mValid := r.1 })
  | none => (false, none, { s with mValid := false })

/-- `Setting<T>::Rollback` (Prefs.h lines 284-287): restore the cached value
from the saved previous value; no store I/O and no change to `mValid`. -/
def Setting.Rollback {T : Type} (s : SettingState T) : SettingState T :=
  { s with mCurrentValue := s.mPreviousValue }

/-- `Setting<T>::Invalidate` (Prefs.h lines 279-282). -/
def Setting.Invalidate {T : Type} (s : SettingState T) : SettingState T :=
  { s with mValid := false }

/-- Result type of `SettingScope::Add` (Prefs.h line 119). -/
inductive AddResult
  | NotAdded
  | Added
  | PreviouslyAdded

/-- The state of the (at most one) active `SettingScope`, as far as one
tracked setting is concerned: whether that setting is in `mPending`, and the
`mCommitted` flag. -/
structure ScopeState where
  staged : Bool
  mCommitted : Bool

/-- Modelled from the spec: the body of `SettingScope::Add` is in Prefs.cpp,
not under src/; this follows its doc comment (Prefs.h lines 113-118) and
spec §4.2: `NotAdded` if there is no pending (and uncommitted) scope;
`PreviouslyAdded` if the setting was already added since the scope began;
else `Added`, inserting the setting into the pending set. -/
def SettingScope.Add : Option ScopeState → AddResult × Option ScopeState
  | none => (AddResult.NotAdded, none)
  | some sc =>
      if sc.mCommitted then (AddResult.NotAdded, some sc)
      else if sc.staged then (AddResult.PreviouslyAdded, some sc)
      else (AddResult.Added, some { sc with staged := true })

/-- A world holding the optional config store, the optional active scope,
and one tracked setting. -/
structure World (T : Type) where
  config : Option (Config T)
  scope : Option ScopeState
  setting : SettingState T

/-- `Setting<T>::Write` (Prefs.h lines 244-266): dispatch on
`SettingScope::Add`.  `NotAdded`: eager write — with a config attached, set
the cached value then `DoWrite`; with none, return false untouched.
`Added`: capture `Read()` into `mPreviousValue`, then fall through.
`PreviouslyAdded`: set the cached value only and return true. -/
def Setting.Write {T : Type} [DecidableEq T] [Inhabited T]
    (w : World T) (value : T) : Bool × World T :=
  match SettingScope.Add w.scope with
  | (AddResult.NotAdded, scope2) =>
      match w.config with
      | some _ =>
          let s1 := { w.setting with mCurrentValue := value }
          let r := Setting.DoWrite w.config s1
          (r.1, { config := r.2.1, scope := scope2, setting := r.2.2 })
      | none => (false, { w with scope := scope2 })
  | (AddResult.Added, scope2) =>
      let r := Setting.Read w.config w.setting
      let s2 := { r.2 with mPreviousValue := r.1, mCurrentValue := value }
      (true, { w with scope := scope2, setting := s2 })
  | (AddResult.PreviouslyAdded, scope2) =>
      (true, { w with scope := scope2, setting := { w.setting with mCurrentValue := value } })

/-- Modelled from the spec: the `SettingScope` constructor body is in
Prefs.cpp, not under src/; per spec §4.2 `Begin()` fails if another scope is
already active, else installs a fresh scope with nothing staged. -/
def SettingScope.beginScope {T : Type} (w : World T) : Option (World T) :=
  match w.scope with
  | none => some { w with scope := some { staged := false, mCommitted := false } }
  | some _ => none

/-- Modelled from the spec: the `~SettingScope` body is in Prefs.cpp, not
under src/; per spec §4.2, destruction without a prior successful commit
rolls back every staged setting (cache only) and releases the active-scope
slot. -/
def SettingScope.dtor {T : Type} (w : World T) : World T :=
  match w.scope with
  | none => w
  | some sc =>
      if sc.mCommitted then { w with scope := none }
      else if sc.staged then
        { w with scope := none, setting := Setting.Rollback w.setting }
      else { w with scope := none }

/-- Invoke `Setting<T>::Commit` (which is `DoWrite`, Prefs.h lines 274-277)
on each pending setting in order, threading the config; returns the list of
per-setting success results, the final config, and the updated settings. -/
def commitAll {T : Type} :
    Option (Config T) → List (SettingState T) →
      List Bool × Option (Config T) × List (SettingState T)
  | cfg, [] => ([], cfg, [])
  | cfg, s :: rest =>
      let r := Setting.DoWrite cfg s
      let q := commitAll r.2.1 rest
      (r.1 :: q.1, q.2.1, r.2.2 :: q.2.2)

/-- A world for a whole transaction: the optional config store, the pending
(staged) settings of the active scope, and its `mCommitted` flag. -/
structure TWorld (T : Type) where
  config : Option (Config T)
  pending : List (SettingState T)
  mCommitted : Bool

/-- Modelled from the spec: the body of `SettingTransaction::Commit` is in
Prefs.cpp, not under src/ (only its declaration, Prefs.h line 141); per spec
§4.2, for every staged setting invoke its commit operation; if all succeed,
flush the store once, mark the scope committed and return true; if any
commit fails, return false without rolling back already-committed
settings. -/
def SettingTransaction.Commit {T : Type} (w : TWorld T) : Bool × TWorld T :=
  let q := commitAll w.config w.pending
  if q.1.all (fun b => b) then
    (true, { config := q.2.1.map Config.flush, pending := q.2.2, mCommitted := true })
  else
    (false, { config := q.2.1, pending := q.2.2, mCommitted := w.mCommitted })

/-- The fields of a constructed `ChoiceSetting` that the construction-time
invariant concerns (Prefs.h lines 371-427). -/
structure ChoiceSetting where
  mKey : String
  mSymbols : List String
  mDefaultSymbol : Int

/-- The `ChoiceSetting` constructors (Prefs.h lines 379-397): both assert
`defaultSymbol < static_cast<long>(mSymbols.size())`; a construction
violating the assertion is rejected (modelled as `none`). -/
def ChoiceSetting.construct (key : String) (symbols : List String)
    (defaultSymbol : Int) : Option ChoiceSetting :=
  if defaultSymbol < (symbols.length : Int) then
    some { mKey := key, mSymbols := symbols, mDefaultSymbol := defaultSymbol }
  else none

/-- The fields of a constructed `EnumSettingBase` (Prefs.h lines 433-469):
the `ChoiceSetting` base plus the parallel integer-code table and the
legacy key. -/
structure EnumSettingBase where
  toChoiceSetting : ChoiceSetting
  mIntValues : List Int
  mOldKey : String

/-- The `EnumSettingBase` constructor (Prefs.h lines 436-449): delegates to
the `ChoiceSetting` constructor (whose assertion must hold) and asserts
`mIntValues.size() == mSymbols.size()`. -/
def EnumSettingBase.construct (key : String) (symbols : List String)
    (defaultSymbol : Int) (intValues : List Int) (oldKey : String) :
    Option EnumSettingBase :=
  match ChoiceSetting.construct key symbols defaultSymbol with
  | none => none
  | some cs =>
      if intValues.length = symbols.length then
        some { toChoiceSetting := cs, mIntValues := intValues, mOldKey := oldKey }
      else none

/-- The `EnumSetting<Enum>` constructor (Prefs.h lines 478-488): converts
each enumerator to its integer code (`{ values.begin(), values.end() }`,
i.e. element-wise `static_cast<int>`) and delegates to the
`EnumSettingBase` constructor. -/
def EnumSetting.construct {E : Type} (toInt : E → Int) (key : String)
    (symbols : List String) (defaultSymbol : Int) (values : List E)
    (oldKey : String) : Option EnumSettingBase :=
  EnumSettingBase.construct key symbols defaultSymbol (values.map toInt) oldKey

/-! ### Basic lemmas about `GetDefault`, `ReadWithDefault`, `Read` -/

@[simp] theorem getDefault_mPath {T : Type} (s : SettingState T) :
    (Setting.GetDefault s).2.mPath = s.mPath := by
  cases h : s.mFunction <;> simp [Setting.GetDefault, h]

@[simp] theorem getDefault_mFunction {T : Type} (s : SettingState T) :
    (Setting.GetDefault s).2.mFunction = s.mFunction := by
  cases h : s.mFunction <;> simp [Setting.GetDefault, h]

@[simp] theorem getDefault_mValid {T : Type} (s : SettingState T) :
    (Setting.GetDefault s).2.mValid = s.mValid := by
  cases h : s.mFunction <;> simp [Setting.GetDefault, h]

@[simp] theorem getDefault_mCurrentValue {T : Type} (s : SettingState T) :
    (Setting.GetDefault s).2.mCurrentValue = s.mCurrentValue := by
  cases h : s.mFunction <;> simp [Setting.GetDefault, h]

@[simp] theorem getDefault_mPreviousValue {T : Type} (s : SettingState T) :
    (Setting.GetDefault s).2.mPreviousValue = s.mPreviousValue := by
  cases h : s.mFunction <;> simp [Setting.GetDefault, h]

@[simp] theorem getDefault_mDefaultValue {T : Type} (s : SettingState T) :
    (Setting.GetDefault s).2.mDefaultValue = (Setting.GetDefault s).1 := by
  cases h : s.mFunction <;> simp [Setting.GetDefault, h]

/-- The resolved default depends only on `mFunction` and, when no function
is configured, on `mDefaultValue`. -/
theorem getDefault_fst_congr_state {T : Type} (s s' : SettingState T)
    (hf : s'.mFunction = s.mFunction) (hd : s'.mDefaultValue = s.mDefaultValue) :
    (Setting.GetDefault s').1 = (Setting.GetDefault s).1 := by
  cases h : s.mFunction with
  | none => simp [Setting.GetDefault, h, hf, hd]
  | some f => simp [Setting.GetDefault, h, hf]

/-- A state whose `mDefaultValue` holds the previously resolved default
resolves to the same default. -/
theorem getDefault_fst_congr {T : Type} (s s' : SettingState T)
    (hf : s'.mFunction = s.mFunction)
    (hd : s'.mDefaultValue = (Setting.GetDefault s).1) :
    (Setting.GetDefault s').1 = (Setting.GetDefault s).1 := by
  cases h : s.mFunction with
  | none =>
      simp [Setting.GetDefault, h] at hd
      simp [Setting.GetDefault, h, hf, hd]
  | some f => simp [Setting.GetDefault, h, hf]

theorem rwd_valid {T : Type} [DecidableEq T] [Inhabited T]
    (cfg : Option (Config T)) (s : SettingState T) (d : T) (h : s.mValid = true) :
    Setting.ReadWithDefault cfg s d = (s.mCurrentValue, s) := by
  simp [Setting.ReadWithDefault, h]

theorem rwd_invalid_none {T : Type} [DecidableEq T] [Inhabited T]
    (s : SettingState T) (d : T) (h : s.mValid = false) :
    Setting.ReadWithDefault none s d = ((default : T), s) := by
  simp [Setting.ReadWithDefault, h]

theorem rwd_invalid_some {T : Type} [DecidableEq T] [Inhabited T]
    (c : Config T) (s : SettingState T) (d : T) (h : s.mValid = false) :
    Setting.ReadWithDefault (some c) s d =
      (c.ReadObject s.mPath d,
        { s with mCurrentValue := c.ReadObject s.mPath d,
                 mValid := decide (¬ c.ReadObject s.mPath d = d) }) := by
  simp [Setting.ReadWithDefault, h]

theorem read_valid {T : Type} [DecidableEq T] [Inhabited T]
    (cfg : Option (Config T)) (s : SettingState T) (h : s.mValid = true) :
    Setting.Read cfg s = (s.mCurrentValue, (Setting.GetDefault s).2) := by
  unfold Setting.Read
  rw [rwd_valid _ _ _ (by simp [h])]
  simp

theorem read_invalid_none {T : Type} [DecidableEq T] [Inhabited T]
    (s : SettingState T) (h : s.mValid = false) :
    Setting.Read none s = ((default : T), (Setting.GetDefault s).2) := by
  unfold Setting.Read
  rw [rwd_invalid_none _ _ (by simp [h])]

theorem read_invalid_some {T : Type} [DecidableEq T] [Inhabited T]
    (c : Config T) (s : SettingState T) (h : s.mValid = false) :
    Setting.Read (some c) s =
      (c.ReadObject s.mPath (Setting.GetDefault s).1,
        { (Setting.GetDefault s).2 with
            mCurrentValue := c.ReadObject s.mPath (Setting.GetDefault s).1,
            mValid := decide (¬ c.ReadObject s.mPath (Setting.GetDefault s).1
              = (Setting.GetDefault s).1) }) := by
  unfold Setting.Read
  rw [rwd_invalid_some _ _ _ (by simp [h])]
  simp

/-- Reading twice (with the store unchanged in between) yields the same
value: the cache never disagrees with what `Read` would report. -/
theorem read_read {T : Type} [DecidableEq T] [Inhabited T]
    (cfg : Option (Config T)) (s : SettingState T) :
    (Setting.Read cfg (Setting.Read cfg s).2).1 = (Setting.Read cfg s).1 := by
  by_cases h : s.mValid = true
  · rw [read_valid cfg s h, read_valid _ _ (by simp [h])]
    simp
  · have h' : s.mValid = false := by simpa using h
    cases cfg with
    | none =>
        rw [read_invalid_none s h', read_invalid_none _ (by simp [h'])]
    | some c =>
        rw [read_invalid_some c s h']
        by_cases hv :
            c.ReadObject s.mPath (Setting.GetDefault s).1 = (Setting.GetDefault s).1
        · rw [read_invalid_some _ _ (by simp [hv])]
          simp only
          have hgd :
              (Setting.GetDefault
                { (Setting.GetDefault s).2 with
                    mCurrentValue := c.ReadObject s.mPath (Setting.GetDefault s).1,
                    mValid := decide (¬ c.ReadObject s.mPath (Setting.GetDefault s).1
                      = (Setting.GetDefault s).1) }).1 = (Setting.GetDefault s).1 := by
            exact getDefault_fst_congr _ _ (by simp) (by simp)
          rw [hgd]
          simp
        · rw [read_valid _ _ (by simp [hv])]

/-- After a `Read`, overwrite the cached value with the very value that
`Read` returned (and `mPreviousValue` with anything): a further `Read`
still returns that value.  This is the cache state left behind by a
rollback of a staged write. -/
theorem read_stable {T : Type} [DecidableEq T] [Inhabited T]
    (cfg : Option (Config T)) (s : SettingState T) (p : T) :
    (Setting.Read cfg
      { (Setting.Read cfg s).2 with
          mPreviousValue := p, mCurrentValue := (Setting.Read cfg s).1 }).1
      = (Setting.Read cfg s).1 := by
  by_cases h : s.mValid = true
  · rw [read_valid cfg s h, read_valid _ _ (by simp [h])]
  · have h' : s.mValid = false := by simpa using h
    cases cfg with
    | none =>
        rw [read_invalid_none s h', read_invalid_none _ (by simp [h'])]
    | some c =>
        rw [read_invalid_some c s h']
        by_cases hv :
            c.ReadObject s.mPath (Setting.GetDefault s).1 = (Setting.GetDefault s).1
        · rw [read_invalid_some _ _ (by simp [hv])]
          simp only
          have hgd :
              (Setting.GetDefault
                { (Setting.GetDefault s).2 with
                    mCurrentValue := c.ReadObject s.mPath (Setting.GetDefault s).1,
                    mValid := decide (¬ c.ReadObject s.mPath (Setting.GetDefault s).1
                      = (Setting.GetDefault s).1),
                    mPreviousValue := p }).1 = (Setting.GetDefault s).1 := by
            exact getDefault_fst_congr _ _ (by simp) (by simp)
          rw [hgd]
          simp
        · rw [read_valid _ _ (by simp [hv])]

/-! ### Shape lemmas for `Setting<T>::Write` in its three dispatch cases -/

theorem write_no_scope_some {T : Type} [DecidableEq T] [Inhabited T]
    (w : World T) (c : Config T) (v : T)
    (hs : w.scope = none) (hc : w.config = some c) :
    Setting.Write w v =
      ((c.WriteValue w.setting.mPath v).1,
        { config := some (c.WriteValue w.setting.mPath v).2,
          scope := none,
          setting :=
            { w.setting with
                mCurrentValue := v,
                mValid := (c.WriteValue w.setting.mPath v).1 } }) := by
  cases w with
  | mk cfg sc st =>
      simp only at hs hc
      subst hs; subst hc
      simp [Setting.Write, SettingScope.Add, Setting.DoWrite]

theorem write_no_scope_none {T : Type} [DecidableEq T] [Inhabited T]
    (w : World T) (v : T) (hs : w.scope = none) (hc : w.config = none) :
    Setting.Write w v = (false, w) := by
  cases w with
  | mk cfg sc st =>
      simp only at hs hc
      subst hs; subst hc
      simp [Setting.Write, SettingScope.Add]

theorem write_added {T : Type} [DecidableEq T] [Inhabited T]
    (w : World T) (v : T)
    (hs : w.scope = some { staged := false, mCommitted := false }) :
    Setting.Write w v =
      (true, { config := w.config,
               scope := some { staged := true, mCommitted := false },
               setting := { (Setting.Read w.config w.setting).2 with
                   mPreviousValue := (Setting.Read w.config w.setting).1,
                   mCurrentValue := v } }) := by
  cases w with
  | mk cfg sc st =>
      simp only at hs
      subst hs
      simp [Setting.Write, SettingScope.Add]

theorem write_previously_added {T : Type} [DecidableEq T] [Inhabited T]
    (w : World T) (v : T)
    (hs : w.scope = some { staged := true, mCommitted := false }) :
    Setting.Write w v =
      (true, { w with setting := { w.setting with mCurrentValue := v } }) := by
  cases w with
  | mk cfg sc st =>
      simp only at hs
      subst hs
      simp [Setting.Write, SettingScope.Add]

/-! ### Claim C1 -/

/-- C1 counterexample: the claim says that with no config store attached,
`Read()` returns the resolved default (`GetDefault()`).  In the code
(Prefs.h lines 239-240) the no-config branch of `ReadWithDefault` returns
the value-initialized `T{}` instead: for an `int` setting whose configured
default is 5, `Read()` with no store returns 0, not 5. -/
theorem C1_counterexample :
    ¬ ((Setting.Read (none : Option (Config Nat))
          { mPath := "k", mFunction := none, mDefaultValue := 5,
            mCurrentValue := 0, mValid := false, mPreviousValue := 0 }).1
        = (Setting.GetDefault
            ({ mPath := "k", mFunction := none, mDefaultValue := 5,
               mCurrentValue := 0, mValid := false, mPreviousValue := 0 }
              : SettingState Nat)).1) := by
  decide

/-- C1 (amended): `Read()` returns the cached value when the validity flag
is set; otherwise it consults the store: when the key is absent it leaves
the cache invalid and returns the resolved default (`GetDefault()`); when
the key is present it caches and returns the stored value; and when no
config store is attached it returns the value-initialized `T{}` (not the
resolved default), leaving the cache invalid. -/
theorem C1_read_contract_amended {T : Type} [DecidableEq T] [Inhabited T]
    (cfg : Option (Config T)) (s : SettingState T) :
    (s.mValid = true →
      Setting.Read cfg s = (s.mCurrentValue, (Setting.GetDefault s).2)) ∧
    (s.mValid = false → ∀ c : Config T, cfg = some c → c.data s.mPath = none →
      (Setting.Read cfg s).1 = (Setting.GetDefault s).1 ∧
      (Setting.Read cfg s).2.mValid = false) ∧
    (s.mValid = false → ∀ c : Config T, ∀ x : T, cfg = some c →
      c.data s.mPath = some x →
      (Setting.Read cfg s).1 = x ∧
      (Setting.Read cfg s).2.mCurrentValue = x) ∧
    (s.mValid = false → cfg = none →
      (Setting.Read cfg s).1 = (default : T) ∧
      (Setting.Read cfg s).2.mValid = false) := by
  refine ⟨fun h => read_valid cfg s h, fun h c hc hd => ?_, fun h c x hc hd => ?_,
    fun h hc => ?_⟩
  · subst hc
    rw [read_invalid_some c s h]
    have hro : c.ReadObject s.mPath (Setting.GetDefault s).1
        = (Setting.GetDefault s).1 := by
      simp [Config.ReadObject, hd]
    rw [hro]
    simp
  · subst hc
    rw [read_invalid_some c s h]
    have hro : c.ReadObject s.mPath (Setting.GetDefault s).1 = x := by
      simp [Config.ReadObject, hd]
    rw [hro]
    simp
  · subst hc
    rw [read_invalid_none s h]
    simp [h]

/-- C1 witness: each branch of the amended read contract evaluated at
concrete inputs. -/
theorem C1_read_contract_amended_witness :
    (Setting.Read (none : Option (Config Nat))
        { mPath := "k", mFunction := none, mDefaultValue := 5,
          mCurrentValue := 7, mValid := true, mPreviousValue := 0 }
      = (7, (Setting.GetDefault
          ({ mPath := "k", mFunction := none, mDefaultValue := 5,
             mCurrentValue := 7, mValid := true, mPreviousValue := 0 }
            : SettingState Nat)).2)) ∧
    ((Setting.Read (some { data := fun _ => none, writeOk := fun _ => true, flushCount := 0 })
        ({ mPath := "k", mFunction := none, mDefaultValue := 5,
           mCurrentValue := 0, mValid := false, mPreviousValue := 0 }
          : SettingState Nat)).1 = 5) ∧
    ((Setting.Read (some { data := fun p => if p = "k" then some 3 else none, writeOk := fun _ => true, flushCount := 0 })
        ({ mPath := "k", mFunction := none, mDefaultValue := 5,
           mCurrentValue := 0, mValid := false, mPreviousValue := 0 }
          : SettingState Nat)).1 = 3) ∧
    ((Setting.Read (none : Option (Config Nat))
        ({ mPath := "k", mFunction := none, mDefaultValue := 5,
           mCurrentValue := 9, mValid := false, mPreviousValue := 0 }
          : SettingState Nat)).1 = 0) := by
  refine ⟨(C1_read_contract_amended none _).1 rfl, ?_, ?_, ?_⟩
  · have h := (C1_read_contract_amended
      (some ({ data := fun _ => none, writeOk := fun _ => true, flushCount := 0 } : Config Nat))
      { mPath := "k", mFunction := none, mDefaultValue := 5,
        mCurrentValue := 0, mValid := false, mPreviousValue := 0 }).2.1
      rfl _ rfl rfl
    exact h.1
  · have h := (C1_read_contract_amended
      (some ({ data := fun p => if p = "k" then some 3 else none, writeOk := fun _ => true, flushCount := 0 } : Config Nat))
      { mPath := "k", mFunction := none, mDefaultValue := 5,
        mCurrentValue := 0, mValid := false, mPreviousValue := 0 }).2.2.1
      rfl _ 3 rfl (by decide)
    exact h.1
  · have h := (C1_read_contract_amended (none : Option (Config Nat))
      { mPath := "k", mFunction := none, mDefaultValue := 5,
        mCurrentValue := 9, mValid := false, mPreviousValue := 0 }).2.2.2
      rfl rfl
    exact h.1

/-! ### Claim C6 -/

/-- C6: when `ReadWithDefault(d)` finds a persisted value equal to the
caller-supplied fallback `d`, it returns `d` but leaves the cache marked
invalid (it cannot distinguish "explicitly set to the fallback" from
"absent"), so a later `ReadWithDefault` with a different fallback `d'`
re-consults the store — it returns the stored value again and this time
marks the cache valid. -/
theorem C6_equal_fallback_leaves_cache_invalid {T : Type} [DecidableEq T] [Inhabited T]
    (c : Config T) (s : SettingState T) (d d' : T)
    (h : s.mValid = false) (hdata : c.data s.mPath = some d) (hne : d' ≠ d) :
    (Setting.ReadWithDefault (some c) s d).1 = d ∧
    (Setting.ReadWithDefault (some c) s d).2.mValid = false ∧
    (Setting.ReadWithDefault (some c)
      (Setting.ReadWithDefault (some c) s d).2 d').1 = d ∧
    (Setting.ReadWithDefault (some c)
      (Setting.ReadWithDefault (some c) s d).2 d').2.mValid = true := by
  have hro : c.ReadObject s.mPath d = d := by simp [Config.ReadObject, hdata]
  have h1 : Setting.ReadWithDefault (some c) s d =
      (d, { s with mCurrentValue := d, mValid := false }) := by
    rw [rwd_invalid_some c s d h, hro]
    simp
  rw [h1]
  have hro' : c.ReadObject
      ({ s with mCurrentValue := d, mValid := false } : SettingState T).mPath d' = d := by
    simp [Config.ReadObject, hdata]
  have h2 : Setting.ReadWithDefault (some c)
      ({ s with mCurrentValue := d, mValid := false } : SettingState T) d' =
      (d, { s with mCurrentValue := d, mValid := decide (¬ d = d') }) := by
    rw [rwd_invalid_some _ _ _ (by simp), hro']
  rw [h2]
  refine ⟨rfl, rfl, rfl, ?_⟩
  simp only
  exact decide_eq_true (fun hdd => hne hdd.symm)

/-- C6 witness: key `"k"` persisted as 3, first `ReadWithDefault 3` leaves
the cache invalid, the second with fallback 4 re-reads 3 from the store. -/
theorem C6_equal_fallback_leaves_cache_invalid_witness :
    (Setting.ReadWithDefault
      (some ({ data := fun p => if p = "k" then some 3 else none, writeOk := fun _ => true, flushCount := 0 } : Config Nat))
      { mPath := "k", mFunction := none, mDefaultValue := 5,
        mCurrentValue := 0, mValid := false, mPreviousValue := 0 } 3).1 = 3 ∧
    (Setting.ReadWithDefault
      (some ({ data := fun p => if p = "k" then some 3 else none, writeOk := fun _ => true, flushCount := 0 } : Config Nat))
      { mPath := "k", mFunction := none, mDefaultValue := 5,
        mCurrentValue := 0, mValid := false, mPreviousValue := 0 } 3).2.mValid = false ∧
    (Setting.ReadWithDefault
      (some ({ data := fun p => if p = "k" then some 3 else none, writeOk := fun _ => true, flushCount := 0 } : Config Nat))
      (Setting.ReadWithDefault
        (some ({ data := fun p => if p = "k" then some 3 else none, writeOk := fun _ => true, flushCount := 0 } : Config Nat))
        { mPath := "k", mFunction := none, mDefaultValue := 5,
          mCurrentValue := 0, mValid := false, mPreviousValue := 0 } 3).2 4).1 = 3 ∧
    (Setting.ReadWithDefault
      (some ({ data := fun p => if p = "k" then some 3 else none, writeOk := fun _ => true, flushCount := 0 } : Config Nat))
      (Setting.ReadWithDefault
        (some ({ data := fun p => if p = "k" then some 3 else none, writeOk := fun _ => true, flushCount := 0 } : Config Nat))
        { mPath := "k", mFunction := none, mDefaultValue := 5,
          mCurrentValue := 0, mValid := false, mPreviousValue := 0 } 3).2 4).2.mValid = true :=
  C6_equal_fallback_leaves_cache_invalid _ _ 3 4 rfl (by decide) (by decide)

/-! ### Claim C4 -/

/-- C4: with no transaction scope active, the store attached and its write
succeeding, `Write(v)` returns true and a subsequent `Read()` returns
`v`. -/
theorem C4_write_then_read {T : Type} [DecidableEq T] [Inhabited T]
    (w : World T) (c : Config T) (v : T)
    (hs : w.scope = none) (hc : w.config = some c)
    (hok : c.writeOk w.setting.mPath = true) :
    (Setting.Write w v).1 = true ∧
    (Setting.Read (Setting.Write w v).2.config (Setting.Write w v).2.setting).1 = v := by
  rw [write_no_scope_some w c v hs hc]
  have hwv : (c.WriteValue w.setting.mPath v).1 = true := by
    simp [Config.WriteValue, hok]
  refine ⟨hwv, ?_⟩
  simp only
  rw [read_valid _ _ (by simp [hwv])]

/-- C4 witness: an eager write of 7 to key `"k"` with a store accepting the
write, then a read returning 7. -/
theorem C4_write_then_read_witness :
    (Setting.Write
      ({ config := some { data := fun _ => none, writeOk := fun _ => true, flushCount := 0 },
         scope := none,
         setting := { mPath := "k", mFunction := none, mDefaultValue := 5, mCurrentValue := 0, mValid := false, mPreviousValue := 0 } } : World Nat) 7).1 = true ∧
    (Setting.Read
      (Setting.Write
        ({ config := some { data := fun _ => none, writeOk := fun _ => true, flushCount := 0 },
           scope := none,
           setting := { mPath := "k", mFunction := none, mDefaultValue := 5, mCurrentValue := 0, mValid := false, mPreviousValue := 0 } } : World Nat) 7).2.config
      (Setting.Write
        ({ config := some { data := fun _ => none, writeOk := fun _ => true, flushCount := 0 },
           scope := none,
           setting := { mPath := "k", mFunction := none, mDefaultValue := 5, mCurrentValue := 0, mValid := false, mPreviousValue := 0 } } : World Nat) 7).2.setting).1 = 7 :=
  C4_write_then_read _ _ 7 rfl rfl rfl

/-! ### Claim C5 -/

/-- C5: inside an active, uncommitted transaction scope, a first `Write(v)`
stages the setting: it captures `Read()` into `mPreviousValue` as the
rollback point, sets only the in-memory cached value to `v`, touches no
store state, marks the setting staged, and returns true; every subsequent
`Write` in the same scope only updates the cached value and returns
true. -/
theorem C5_staged_write_behavior {T : Type} [DecidableEq T] [Inhabited T]
    (w : World T) (v : T) :
    (w.scope = some { staged := false, mCommitted := false } →
      Setting.Write w v =
        (true, { config := w.config,
                 scope := some { staged := true, mCommitted := false },
                 setting :=
                   { (Setting.Read w.config w.setting).2 with
                       mPreviousValue := (Setting.Read w.config w.setting).1,
                       mCurrentValue := v } })) ∧
    (w.scope = some { staged := true, mCommitted := false } →
      Setting.Write w v =
        (true, { w with setting := { w.setting with mCurrentValue := v } })) :=
  ⟨fun hs => write_added w v hs, fun hs => write_previously_added w v hs⟩

/-- C5 witness: both staging branches evaluated at a concrete world, key
absent from the store. -/
theorem C5_staged_write_behavior_witness :
    (Setting.Write
      ({ config := some { data := fun _ => none, writeOk := fun _ => true, flushCount := 0 },
         scope := some { staged := false, mCommitted := false },
         setting := { mPath := "k", mFunction := none, mDefaultValue := 5, mCurrentValue := 0, mValid := false, mPreviousValue := 0 } } : World Nat) 7) =
      (true,
        { config := some { data := fun _ => none, writeOk := fun _ => true, flushCount := 0 },
          scope := some { staged := true, mCommitted := false },
          setting :=
            { (Setting.Read
                (some { data := fun _ => none, writeOk := fun _ => true, flushCount := 0 })
                ({ mPath := "k", mFunction := none, mDefaultValue := 5,
                   mCurrentValue := 0, mValid := false, mPreviousValue := 0 }
                  : SettingState Nat)).2 with
                mPreviousValue :=
                  (Setting.Read
                    (some { data := fun _ => none, writeOk := fun _ => true, flushCount := 0 })
                    ({ mPath := "k", mFunction := none, mDefaultValue := 5,
                       mCurrentValue := 0, mValid := false, mPreviousValue := 0 }
                      : SettingState Nat)).1,
                mCurrentValue := 7 } }) ∧
    (Setting.Write
      ({ config := some { data := fun _ => none, writeOk := fun _ => true, flushCount := 0 },
         scope := some { staged := true, mCommitted := false },
         setting := { mPath := "k", mFunction := none, mDefaultValue := 5, mCurrentValue := 7, mValid := false, mPreviousValue := 5 } } : World Nat) 9) =
      (true,
        { config := some { data := fun _ => none, writeOk := fun _ => true, flushCount := 0 },
          scope := some { staged := true, mCommitted := false },
          setting := { mPath := "k", mFunction := none, mDefaultValue := 5, mCurrentValue := 9, mValid := false, mPreviousValue := 5 } }) :=
  ⟨(C5_staged_write_behavior _ 7).1 rfl, (C5_staged_write_behavior _ 9).2 rfl⟩

/-! ### Claim C9 -/

/-- When the key is absent from the store and the cache starts invalid, a
`Read` of the post-staging state (previous value captured, cached value
overwritten with anything) returns the resolved default and clobbers the
cached value with it. -/
theorem read_absent_after_staging {T : Type} [DecidableEq T] [Inhabited T]
    (c : Config T) (s : SettingState T) (v p : T)
    (habs : c.data s.mPath = none) (hval : s.mValid = false) :
    (Setting.Read (some c)
      { (Setting.Read (some c) s).2 with
          mPreviousValue := p, mCurrentValue := v }).1
      = (Setting.GetDefault s).1 ∧
    (Setting.Read (some c)
      { (Setting.Read (some c) s).2 with
          mPreviousValue := p, mCurrentValue := v }).2.mCurrentValue
      = (Setting.GetDefault s).1 := by
  have hro : c.ReadObject s.mPath (Setting.GetDefault s).1
      = (Setting.GetDefault s).1 := by
    simp [Config.ReadObject, habs]
  rcases hr : Setting.Read (some c) s with ⟨R, m⟩
  have h1 := read_invalid_some c s hval
  rw [hr] at h1
  injection h1 with hR hm
  have hmval : m.mValid = false := by rw [hm]; simp [hro]
  have hmpath : m.mPath = s.mPath := by rw [hm]; simp
  have hmfun : m.mFunction = s.mFunction := by rw [hm]; simp
  have hmdef : m.mDefaultValue = (Setting.GetDefault s).1 := by rw [hm]; simp
  have hgd2 : (Setting.GetDefault
      ({ m with mPreviousValue := p, mCurrentValue := v } : SettingState T)).1
      = (Setting.GetDefault s).1 :=
    getDefault_fst_congr s _ (by simp [hmfun]) (by simp [hmdef])
  rw [read_invalid_some c _ (by simp [hmval])]
  simp only
  rw [hgd2]
  constructor <;> simp [Config.ReadObject, hmpath, habs]

/-- C9: staged writes are invisible to `Read` when the key is absent from
the store.  With an active scope, an unstaged setting whose key is absent
and whose cache is invalid: `Write(v)` stages and returns true, leaving the
cached value `v`, but the next `Read()` returns the resolved default, not
`v`, and overwrites the staged cached value with the default — because the
staged write path updates `mCurrentValue` without setting `mValid`. -/
theorem C9_staged_write_not_observable {T : Type} [DecidableEq T] [Inhabited T]
    (w : World T) (c : Config T) (v : T)
    (hs : w.scope = some { staged := false, mCommitted := false })
    (hc : w.config = some c)
    (habs : c.data w.setting.mPath = none)
    (hval : w.setting.mValid = false)
    (hv : v ≠ (Setting.GetDefault w.setting).1) :
    (Setting.Write w v).1 = true ∧
    (Setting.Write w v).2.setting.mCurrentValue = v ∧
    (Setting.Read (Setting.Write w v).2.config (Setting.Write w v).2.setting).1
      = (Setting.GetDefault w.setting).1 ∧
    (Setting.Read (Setting.Write w v).2.config (Setting.Write w v).2.setting).1
      ≠ v ∧
    (Setting.Read (Setting.Write w v).2.config (Setting.Write w v).2.setting).2.mCurrentValue
      = (Setting.GetDefault w.setting).1 := by
  rw [write_added w v hs]
  simp only [hc]
  have h := read_absent_after_staging c w.setting v
    (Setting.Read (some c) w.setting).1 habs hval
  refine ⟨trivial, trivial, h.1, ?_, h.2⟩
  exact fun hh => hv (hh.symm.trans h.1)

/-- C9 witness: key `"k"` absent, default 5, staged write of 7 inside a
fresh scope; the following read reports 5, not 7. -/
theorem C9_staged_write_not_observable_witness :
    (Setting.Write
      ({ config := some { data := fun _ => none, writeOk := fun _ => true, flushCount := 0 },
         scope := some { staged := false, mCommitted := false },
         setting := { mPath := "k", mFunction := none, mDefaultValue := 5, mCurrentValue := 0, mValid := false, mPreviousValue := 0 } } : World Nat) 7).1 = true ∧
    (Setting.Write
      ({ config := some { data := fun _ => none, writeOk := fun _ => true, flushCount := 0 },
         scope := some { staged := false, mCommitted := false },
         setting := { mPath := "k", mFunction := none, mDefaultValue := 5, mCurrentValue := 0, mValid := false, mPreviousValue := 0 } } : World Nat) 7).2.setting.mCurrentValue = 7 ∧
    (Setting.Read
      (Setting.Write
        ({ config := some { data := fun _ => none, writeOk := fun _ => true, flushCount := 0 },
           scope := some { staged := false, mCommitted := false },
           setting := { mPath := "k", mFunction := none, mDefaultValue := 5, mCurrentValue := 0, mValid := false, mPreviousValue := 0 } } : World Nat) 7).2.config
      (Setting.Write
        ({ config := some { data := fun _ => none, writeOk := fun _ => true, flushCount := 0 },
           scope := some { staged := false, mCommitted := false },
           setting := { mPath := "k", mFunction := none, mDefaultValue := 5, mCurrentValue := 0, mValid := false, mPreviousValue := 0 } } : World Nat) 7).2.setting).1 = 5 ∧
    (Setting.Read
      (Setting.Write
        ({ config := some { data := fun _ => none, writeOk := fun _ => true, flushCount := 0 },
           scope := some { staged := false, mCommitted := false },
           setting := { mPath := "k", mFunction := none, mDefaultValue := 5, mCurrentValue := 0, mValid := false, mPreviousValue := 0 } } : World Nat) 7).2.config
      (Setting.Write
        ({ config := some { data := fun _ => none, writeOk := fun _ => true, flushCount := 0 },
           scope := some { staged := false, mCommitted := false },
           setting := { mPath := "k", mFunction := none, mDefaultValue := 5, mCurrentValue := 0, mValid := false, mPreviousValue := 0 } } : World Nat) 7).2.setting).1 ≠ 7 := by
  have h := C9_staged_write_not_observable
    ({ config := some { data := fun _ => none, writeOk := fun _ => true, flushCount := 0 },
       scope := some { staged := false, mCommitted := false },
       setting := { mPath := "k", mFunction := none, mDefaultValue := 5, mCurrentValue := 0, mValid := false, mPreviousValue := 0 } } : World Nat)
    { data := fun _ => none, writeOk := fun _ => true, flushCount := 0 } 7
    rfl rfl rfl rfl (by decide)
  exact ⟨h.1, h.2.1, h.2.2.1, h.2.2.2.1⟩

/-! ### Claim C3 -/

/-- C3: rollback round-trip.  Begin a transaction scope, record `orig` as
`A.Read()`, write a different value `v`, destroy the scope without
committing: `A.Read()` afterward returns `orig`, and the store is exactly
as before (no write was issued for any key, in particular not for A's). -/
theorem C3_rollback_roundtrip {T : Type} [DecidableEq T] [Inhabited T]
    (w : World T) (v : T) (hs : w.scope = none)
    (_hv : v ≠ (Setting.Read w.config w.setting).1) :
    ∀ w1 : World T, SettingScope.beginScope w = some w1 →
    (Setting.Read
        (SettingScope.dtor (Setting.Write
          { w1 with setting := (Setting.Read w1.config w1.setting).2 } v).2).config
        (SettingScope.dtor (Setting.Write
          { w1 with setting := (Setting.Read w1.config w1.setting).2 } v).2).setting).1
      = (Setting.Read w.config w.setting).1 ∧
    (SettingScope.dtor (Setting.Write
        { w1 with setting := (Setting.Read w1.config w1.setting).2 } v).2).config
      = w.config := by
  intro w1 hw1
  have hw1' : w1 = { w with scope := some { staged := false, mCommitted := false } } := by
    unfold SettingScope.beginScope at hw1
    rw [hs] at hw1
    simp only at hw1
    injection hw1 with h
    exact h.symm
  subst hw1'
  rw [write_added _ v (by simp)]
  simp only [SettingScope.dtor, Setting.Rollback]
  have h1 := read_stable w.config (Setting.Read w.config w.setting).2
    (Setting.Read w.config (Setting.Read w.config w.setting).2).1
  have h2 := read_read w.config w.setting
  exact ⟨h1.trans h2, rfl⟩

/-- C3 witness: key `"k"` persisted as 3; `orig = 3` is read, 9 is written
inside the scope, the scope is destroyed uncommitted; the final read
returns 3 and the store is untouched. -/
theorem C3_rollback_roundtrip_witness :
    (Setting.Read
        (SettingScope.dtor (Setting.Write
          { config := some ({ data := fun p => if p = "k" then some 3 else none, writeOk := fun _ => true, flushCount := 0 } : Config Nat),
            scope := some { staged := false, mCommitted := false },
            setting := (Setting.Read
              (some ({ data := fun p => if p = "k" then some 3 else none, writeOk := fun _ => true, flushCount := 0 } : Config Nat))
              { mPath := "k", mFunction := none, mDefaultValue := 5, mCurrentValue := 0, mValid := false, mPreviousValue := 0 }).2 } 9).2).config
        (SettingScope.dtor (Setting.Write
          { config := some ({ data := fun p => if p = "k" then some 3 else none, writeOk := fun _ => true, flushCount := 0 } : Config Nat),
            scope := some { staged := false, mCommitted := false },
            setting := (Setting.Read
              (some ({ data := fun p => if p = "k" then some 3 else none, writeOk := fun _ => true, flushCount := 0 } : Config Nat))
              { mPath := "k", mFunction := none, mDefaultValue := 5, mCurrentValue := 0, mValid := false, mPreviousValue := 0 }).2 } 9).2).setting).1
      = 3 ∧
    (SettingScope.dtor (Setting.Write
        { config := some ({ data := fun p => if p = "k" then some 3 else none, writeOk := fun _ => true, flushCount := 0 } : Config Nat),
          scope := some { staged := false, mCommitted := false },
          setting := (Setting.Read
            (some ({ data := fun p => if p = "k" then some 3 else none, writeOk := fun _ => true, flushCount := 0 } : Config Nat))
            { mPath := "k", mFunction := none, mDefaultValue := 5, mCurrentValue := 0, mValid := false, mPreviousValue := 0 }).2 } 9).2).config
      = some ({ data := fun p => if p = "k" then some 3 else none, writeOk := fun _ => true, flushCount := 0 } : Config Nat) := by
  have h := C3_rollback_roundtrip
    ({ config := some ({ data := fun p => if p = "k" then some 3 else none, writeOk := fun _ => true, flushCount := 0 } : Config Nat),
       scope := none,
       setting := { mPath := "k", mFunction := none, mDefaultValue := 5, mCurrentValue := 0, mValid := false, mPreviousValue := 0 } } : World Nat)
    9 rfl (by decide) _ rfl
  exact ⟨h.1.trans (by decide), h.2⟩

/-! ### Claim C10 -/

/-- C10 counterexample: the claim says that on every failed eager write —
store absent, or the store's write returning false — the cached value has
been set to `v`.  In the code (Prefs.h lines 250-255) the no-config branch
returns false before touching `mCurrentValue`: writing 7 with no store
leaves the cached value 0. -/
theorem C10_counterexample :
    (Setting.Write
      ({ config := none, scope := none,
         setting := { mPath := "k", mFunction := none, mDefaultValue := 5, mCurrentValue := 0, mValid := false, mPreviousValue := 0 } } : World Nat) 7).1 = false ∧
    ¬ ((Setting.Write
      ({ config := none, scope := none,
         setting := { mPath := "k", mFunction := none, mDefaultValue := 5, mCurrentValue := 0, mValid := false, mPreviousValue := 0 } } : World Nat) 7).2.setting.mCurrentValue = 7) := by
  constructor
  · rfl
  · decide

/-- C10 (amended): when an eager `Write(v)` fails because the attached
store's write returns false, the cached value has been set to `v` but the
validity flag is false, so the next `Read()` re-consults the store (its
result is the stored value resolved against the default, independent of
`v`) rather than serving `v` from the cache; when no store is attached,
`Write(v)` returns false and leaves the world — cache included —
unchanged. -/
theorem C10_failed_eager_write_amended {T : Type} [DecidableEq T] [Inhabited T]
    (w : World T) (v : T) (hs : w.scope = none) :
    (∀ c : Config T, w.config = some c → c.writeOk w.setting.mPath = false →
      Setting.Write w v =
        (false, { config := some c, scope := none,
                  setting :=
                    { w.setting with mCurrentValue := v, mValid := false } }) ∧
      (Setting.Read (some c)
          ({ w.setting with mCurrentValue := v, mValid := false } : SettingState T)).1
        = c.ReadObject w.setting.mPath (Setting.GetDefault w.setting).1) ∧
    (w.config = none → Setting.Write w v = (false, w)) := by
  constructor
  · intro c hc hok
    have hwv : c.WriteValue w.setting.mPath v = (false, c) := by
      simp [Config.WriteValue, hok]
    constructor
    · rw [write_no_scope_some w c v hs hc, hwv]
    · rw [read_invalid_some c _ (by simp)]
      simp only
      have hgd : (Setting.GetDefault
          ({ w.setting with mCurrentValue := v, mValid := false } : SettingState T)).1
          = (Setting.GetDefault w.setting).1 :=
        getDefault_fst_congr_state w.setting _ (by simp) (by simp)
      rw [hgd]
  · intro hc
    exact write_no_scope_none w v hs hc

/-- C10 witness: a store that rejects writes to `"k"` while holding the
persisted value 3; writing 7 eagerly fails, caches 7 invalidly, and the
next read returns 3 from the store. -/
theorem C10_failed_eager_write_amended_witness :
    (Setting.Write
      ({ config := some { data := fun p => if p = "k" then some 3 else none, writeOk := fun _ => false, flushCount := 0 },
         scope := none,
         setting := { mPath := "k", mFunction := none, mDefaultValue := 5, mCurrentValue := 0, mValid := false, mPreviousValue := 0 } } : World Nat) 7) =
      (false,
        { config := some { data := fun p => if p = "k" then some 3 else none, writeOk := fun _ => false, flushCount := 0 },
          scope := none,
          setting := { mPath := "k", mFunction := none, mDefaultValue := 5, mCurrentValue := 7, mValid := false, mPreviousValue := 0 } }) ∧
    (Setting.Read
      (some ({ data := fun p => if p = "k" then some 3 else none, writeOk := fun _ => false, flushCount := 0 } : Config Nat))
      { mPath := "k", mFunction := none, mDefaultValue := 5, mCurrentValue := 7, mValid := false, mPreviousValue := 0 }).1 = 3 ∧
    (Setting.Write
      ({ config := none, scope := none,
         setting := { mPath := "k", mFunction := none, mDefaultValue := 5, mCurrentValue := 0, mValid := false, mPreviousValue := 0 } } : World Nat) 9) =
      (false,
        { config := none, scope := none,
          setting := { mPath := "k", mFunction := none, mDefaultValue := 5, mCurrentValue := 0, mValid := false, mPreviousValue := 0 } }) := by
  have h1 := (C10_failed_eager_write_amended
    ({ config := some { data := fun p => if p = "k" then some 3 else none, writeOk := fun _ => false, flushCount := 0 },
       scope := none,
       setting := { mPath := "k", mFunction := none, mDefaultValue := 5, mCurrentValue := 0, mValid := false, mPreviousValue := 0 } } : World Nat)
    7 rfl).1 _ rfl rfl
  have h2 := (C10_failed_eager_write_amended
    ({ config := none, scope := none,
       setting := { mPath := "k", mFunction := none, mDefaultValue := 5, mCurrentValue := 0, mValid := false, mPreviousValue := 0 } } : World Nat)
    9 rfl).2 rfl
  exact ⟨h1.1, h1.2.trans (by decide), h2⟩

/-! ### Claim C2 -/

/-- `commitAll` produces one success flag per pending setting: every staged
setting's commit operation is invoked. -/
theorem commitAll_length {T : Type} (cfg : Option (Config T))
    (l : List (SettingState T)) : (commitAll cfg l).1.length = l.length := by
  induction l generalizing cfg with
  | nil => rfl
  | cons s rest ih => simp [commitAll, ih]

/-- C2: `SettingTransaction::Commit` invokes the commit operation of every
staged setting (one success flag per pending setting); it returns true
exactly when all of them succeed, in which case it flushes the store once
and marks the scope committed; on any failure it returns false, does not
flush, does not change the committed flag, and leaves in the store every
write that already succeeded (partial persistence): with two staged
settings on distinct keys where the first write succeeds and the second
fails, the overall result is false yet the first setting's value is
persisted and no flush happened. -/
theorem C2_transaction_commit {T : Type} (w : TWorld T) :
    ((SettingTransaction.Commit w).1
      = (commitAll w.config w.pending).1.all (fun b => b)) ∧
    ((SettingTransaction.Commit w).2.pending = (commitAll w.config w.pending).2.2) ∧
    ((commitAll w.config w.pending).1.all (fun b => b) = true →
      (SettingTransaction.Commit w).2.mCommitted = true ∧
      (SettingTransaction.Commit w).2.config
        = ((commitAll w.config w.pending).2.1).map Config.flush) ∧
    ((commitAll w.config w.pending).1.all (fun b => b) = false →
      (SettingTransaction.Commit w).1 = false ∧
      (SettingTransaction.Commit w).2.mCommitted = w.mCommitted ∧
      (SettingTransaction.Commit w).2.config = (commitAll w.config w.pending).2.1) ∧
    ((commitAll w.config w.pending).1.length = w.pending.length) ∧
    (∀ (c : Config T) (s1 s2 : SettingState T),
      w.config = some c → w.pending = [s1, s2] → s1.mPath ≠ s2.mPath →
      c.writeOk s1.mPath = true → c.writeOk s2.mPath = false →
      (SettingTransaction.Commit w).1 = false ∧
      ∃ c2 : Config T, (SettingTransaction.Commit w).2.config = some c2 ∧
        c2.data s1.mPath = some s1.mCurrentValue ∧
        c2.flushCount = c.flushCount) := by
  refine ⟨?_, ?_, ?_, ?_, commitAll_length w.config w.pending, ?_⟩
  · by_cases hall : (commitAll w.config w.pending).1.all (fun b => b) = true
    · simp [SettingTransaction.Commit, hall]
    · simp [SettingTransaction.Commit, hall]
  · by_cases hall : (commitAll w.config w.pending).1.all (fun b => b) = true
    · simp [SettingTransaction.Commit, hall]
    · simp [SettingTransaction.Commit, hall]
  · intro hall
    simp [SettingTransaction.Commit, hall]
  · intro hall
    rw [SettingTransaction.Commit]
    simp [hall]
  · intro c s1 s2 hc hp _hne hok1 hok2
    rw [SettingTransaction.Commit]
    rw [hc, hp]
    simp [commitAll, Setting.DoWrite, Config.WriteValue, hok1, hok2]

/-- C2 witness: two staged settings, write to `"a"` accepted and write to
`"b"` rejected — commit reports false yet `"a"` holds 7 and no flush
happened; with only the succeeding setting staged, commit marks the scope
committed. -/
theorem C2_transaction_commit_witness :
    ((SettingTransaction.Commit
      ({ config := some { data := fun _ => none, writeOk := fun p => p == "a", flushCount := 0 },
         pending := [{ mPath := "a", mFunction := none, mDefaultValue := 0, mCurrentValue := 7, mValid := false, mPreviousValue := 0 },
                     { mPath := "b", mFunction := none, mDefaultValue := 0, mCurrentValue := 9, mValid := false, mPreviousValue := 0 }],
         mCommitted := false } : TWorld Nat)).1 = false ∧
      ∃ c2 : Config Nat,
        (SettingTransaction.Commit
          ({ config := some { data := fun _ => none, writeOk := fun p => p == "a", flushCount := 0 },
             pending := [{ mPath := "a", mFunction := none, mDefaultValue := 0, mCurrentValue := 7, mValid := false, mPreviousValue := 0 },
                         { mPath := "b", mFunction := none, mDefaultValue := 0, mCurrentValue := 9, mValid := false, mPreviousValue := 0 }],
             mCommitted := false } : TWorld Nat)).2.config = some c2 ∧
        c2.data "a" = some 7 ∧ c2.flushCount = 0) ∧
    (SettingTransaction.Commit
      ({ config := some { data := fun _ => none, writeOk := fun p => p == "a", flushCount := 0 },
         pending := [{ mPath := "a", mFunction := none, mDefaultValue := 0, mCurrentValue := 7, mValid := false, mPreviousValue := 0 }],
         mCommitted := false } : TWorld Nat)).2.mCommitted = true := by
  refine ⟨(C2_transaction_commit _).2.2.2.2.2 _ _ _ rfl rfl (by decide) (by decide)
    (by decide), ((C2_transaction_commit _).2.2.1 (by decide)).1⟩

/-! ### Claim C7 -/

/-- C7: the `ChoiceSetting` constructors assert
`defaultSymbol < static_cast<long>(mSymbols.size())`; a construction whose
default row index is at or beyond the symbol-table size is rejected (in
particular any non-sentinel index `≥ size`, the `-1` sentinel never being
`≥ size`), and every construction satisfying the documented precondition
is accepted with the fields stored unchanged. -/
theorem C7_choice_default_bounds (key : String) (symbols : List String) (ds : Int) :
    ((symbols.length : Int) ≤ ds → ChoiceSetting.construct key symbols ds = none) ∧
    (ds < (symbols.length : Int) →
      ChoiceSetting.construct key symbols ds
        = some { mKey := key, mSymbols := symbols, mDefaultSymbol := ds }) := by
  constructor
  · intro h
    simp [ChoiceSetting.construct, not_lt.mpr h]
  · intro h
    simp [ChoiceSetting.construct, h]

/-- C7 witness: with a two-row symbol table, default index 2 is rejected
and the sentinel -1 is accepted. -/
theorem C7_choice_default_bounds_witness :
    ChoiceSetting.construct "k" ["x", "y"] 2 = none ∧
    ChoiceSetting.construct "k" ["x", "y"] (-1)
      = some { mKey := "k", mSymbols := ["x", "y"], mDefaultSymbol := -1 } :=
  ⟨(C7_choice_default_bounds "k" ["x", "y"] 2).1 (by decide),
   (C7_choice_default_bounds "k" ["x", "y"] (-1)).2 (by decide)⟩

/-! ### Claim C8 -/

/-- C8: every constructed `EnumSettingBase` has its integer-code table and
its symbol table of equal length (the constructor asserts it, and the
`EnumSetting<Enum>` constructor's element-wise cast preserves the length of
the `values` table), and the embedding offers no operation that resizes
either table, so the invariant is preserved thereafter. -/
theorem C8_enum_tables_equal_length :
    (∀ (key : String) (symbols : List String) (ds : Int) (ints : List Int)
        (oldKey : String) (e : EnumSettingBase),
      EnumSettingBase.construct key symbols ds ints oldKey = some e →
      e.mIntValues.length = e.toChoiceSetting.mSymbols.length) ∧
    (∀ (E : Type) (toInt : E → Int) (key : String) (symbols : List String)
        (ds : Int) (values : List E) (oldKey : String),
      ds < (symbols.length : Int) → values.length = symbols.length →
      ∃ e : EnumSettingBase,
        EnumSetting.construct toInt key symbols ds values oldKey = some e ∧
        e.mIntValues.length = e.toChoiceSetting.mSymbols.length) := by
  constructor
  · intro key symbols ds ints oldKey e h
    by_cases h1 : ds < (symbols.length : Int)
    · by_cases h2 : ints.length = symbols.length
      · simp [EnumSettingBase.construct, ChoiceSetting.construct, h1, h2] at h
        subst h
        simpa using h2
      · simp [EnumSettingBase.construct, ChoiceSetting.construct, h1, h2] at h
    · simp [EnumSettingBase.construct, ChoiceSetting.construct, h1] at h
  · intro E toInt key symbols ds values oldKey h1 h2
    refine ⟨{ toChoiceSetting := { mKey := key, mSymbols := symbols, mDefaultSymbol := ds },
              mIntValues := values.map toInt, mOldKey := oldKey }, ?_, by simpa using h2⟩
    simp [EnumSetting.construct, EnumSettingBase.construct, ChoiceSetting.construct, h1, h2]

/-- C8 witness: a two-row enum table constructed both through
`EnumSettingBase` and through `EnumSetting<Enum>` (with the identity cast),
each with tables of equal length 2. -/
theorem C8_enum_tables_equal_length_witness :
    (({ toChoiceSetting := { mKey := "k", mSymbols := ["x", "y"], mDefaultSymbol := 0 },
        mIntValues := [10, 20], mOldKey := "" } : EnumSettingBase).mIntValues.length
      = ({ toChoiceSetting := { mKey := "k", mSymbols := ["x", "y"], mDefaultSymbol := 0 },
           mIntValues := [10, 20], mOldKey := "" } : EnumSettingBase).toChoiceSetting.mSymbols.length) ∧
    (∃ e : EnumSettingBase,
      EnumSetting.construct (fun n : Int => n) "k" ["x", "y"] 0 [10, 20] "" = some e ∧
      e.mIntValues.length = e.toChoiceSetting.mSymbols.length) :=
  ⟨C8_enum_tables_equal_length.1 "k" ["x", "y"] 0 [10, 20] "" _ rfl,
   C8_enum_tables_equal_length.2 Int (fun n => n) "k" ["x", "y"] 0 [10, 20] ""
     (by decide) (by decide)⟩

end Prefs
